import Mathlib

/-!
Verification of the Dreamspell / 13-Moon Kin calculator.

The repository contains two copies of the same calculator:
* `part_000` — a plain JS module (`calculateKin`, tables, `isLeapYear`),
  signalling an unsupported year by throwing;
* `part_001` — a React component embedding the same calculator, signalling
  an unsupported year by a typed failure record, and with a year table
  extended by 2031–2035.

We embed both shallowly.  JS numbers are modelled as `Int`; the JS `%`
operator (truncated remainder) is `Int.tmod`; object-table lookups are
`Int → Option Int` with JS truthiness of `table[key]` modelled as
`(table key).getD 0 = 0` (the table values are integers, so `undefined`
and `0` are exactly the falsy cases); a thrown error is `Except.error`.
-/

namespace Dreamspell

/-- The `while (kin > 260) kin -= 260` loop of the source
(part_000 lines 98–100, part_001 lines 118–120). -/
def wrapDown (k : Int) : Int :=
  if h : 260 < k then wrapDown (k - 260) else k
termination_by (k - 260).toNat
decreasing_by
  simp_wf
  omega

/-- The `while (kin < 1) kin += 260` loop of the source
(part_000 lines 101–103, part_001 lines 121–123). -/
def wrapUp (k : Int) : Int :=
  if h : k < 1 then wrapUp (k + 260) else k
termination_by (1 - k).toNat
decreasing_by
  simp_wf
  omega

/-- The two normalization loops run in sequence, as in the source:
first wrap down below 261, then wrap up above 0. -/
def normalizeKin (k : Int) : Int := wrapUp (wrapDown k)

namespace Part000

/-- `monthConstants` (part_000 lines 7–20): month number 1–12 to offset;
other keys are absent (`undefined` in JS). -/
def monthConstants : Int → Option Int
  | 1 => some 0
  | 2 => some 31
  | 3 => some 59
  | 4 => some 90
  | 5 => some 120
  | 6 => some 151
  | 7 => some 181
  | 8 => some 212
  | 9 => some 243
  | 10 => some 13
  | 11 => some 44
  | 12 => some 74
  | _ => none

/-- `yearConstants` (part_000 lines 23–41): supported years 2014–2030. -/
def yearConstants : Int → Option Int
  | 2014 => some 62
  | 2015 => some 167
  | 2016 => some 12
  | 2017 => some 117
  | 2018 => some 222
  | 2019 => some 67
  | 2020 => some 172
  | 2021 => some 17
  | 2022 => some 122
  | 2023 => some 227
  | 2024 => some 72
  | 2025 => some 177
  | 2026 => some 22
  | 2027 => some 127
  | 2028 => some 232
  | 2029 => some 77
  | 2030 => some 182
  | _ => none

/-- `sealNames` (part_000 lines 44–49): the 20 seal names. -/
def sealNames : List String :=
  ["紅龍", "白風", "藍夜", "黃種子", "紅蛇",
   "白世界橋", "藍手", "黃星星", "紅月", "白狗",
   "藍猴", "黃人", "紅天行者", "白巫師", "藍鷹",
   "黃戰士", "紅地球", "白鏡", "藍風暴", "黃太陽"]

/-- `toneNames` (part_000 lines 52–56): the 13 tone names. -/
def toneNames : List String :=
  ["磁性的", "月亮的", "電力的", "自我存在的", "超頻的",
   "韻律的", "共振的", "銀河星系的", "太陽的", "行星的",
   "光譜的", "水晶的", "宇宙的"]

/-- `isLeapYear` (part_000 lines 61–63).  JS `%` is truncated remainder,
hence `Int.tmod`. -/
def isLeapYear (year : Int) : Bool :=
  (year.tmod 4 == 0 && year.tmod 100 != 0) || year.tmod 400 == 0

/-- The result object of part_000's `calculateKin`: keys absent from one of
the return shapes are `none`. -/
structure KinResult where
  kin : Option Int
  «seal» : Option String
  tone : Option String
  sealNumber : Option Int
  isHunabKu : Bool
  displayText : String
deriving Repr, DecidableEq

/-- `calculateKin` (part_000 lines 72–124).  The unsupported-year `throw`
is `Except.error`; the truthiness test `!yearConstants[year]` is
`(yearConstants year).getD 0 = 0` (all table values are integers). -/
def calculateKin (year month day : Int) : Except String KinResult :=
  if month = 2 ∧ day = 29 then
    .ok { kin := none, «seal» := none, tone := none, sealNumber := none,
          isHunabKu := true, displayText := "Hunab Ku" }
  else if (yearConstants year).getD 0 = 0 then
    .error ("年份 " ++ toString year ++ " 的常數尚未定義")
  else
    let kin1 := (yearConstants year).getD 0 + (monthConstants month).getD 0 + day
    let kin2 := if isLeapYear year && (2 < month || (month == 2 && 28 < day))
                then kin1 + 1 else kin1
    let kin := normalizeKin kin2
    let sealIndex := (kin - 1).tmod 20
    let «seal» := sealNames.getD sealIndex.toNat ""
    let toneIndex := (kin - 1).tmod 13
    let tone := toneNames.getD toneIndex.toNat ""
    let sealNumber := sealIndex + 1
    .ok { kin := some kin, «seal» := some «seal», tone := some tone,
          sealNumber := some sealNumber, isHunabKu := false,
          displayText := tone ++ «seal» }

end Part000

namespace Part001

/-- `MONTH_CONSTANTS` (part_001 lines 11–24): identical to part_000's
`monthConstants`. -/
def MONTH_CONSTANTS : Int → Option Int
  | 1 => some 0
  | 2 => some 31
  | 3 => some 59
  | 4 => some 90
  | 5 => some 120
  | 6 => some 151
  | 7 => some 181
  | 8 => some 212
  | 9 => some 243
  | 10 => some 13
  | 11 => some 44
  | 12 => some 74
  | _ => none

/-- `YEAR_CONSTANTS` (part_001 lines 27–50): part_000's table extended by
2031–2035. -/
def YEAR_CONSTANTS : Int → Option Int
  | 2014 => some 62
  | 2015 => some 167
  | 2016 => some 12
  | 2017 => some 117
  | 2018 => some 222
  | 2019 => some 67
  | 2020 => some 172
  | 2021 => some 17
  | 2022 => some 122
  | 2023 => some 227
  | 2024 => some 72
  | 2025 => some 177
  | 2026 => some 22
  | 2027 => some 127
  | 2028 => some 232
  | 2029 => some 77
  | 2030 => some 182
  | 2031 => some 27
  | 2032 => some 132
  | 2033 => some 237
  | 2034 => some 82
  | 2035 => some 187
  | _ => none

/-- `SEAL_NAMES` (part_001 lines 53–58): identical to part_000's list. -/
def SEAL_NAMES : List String :=
  ["紅龍", "白風", "藍夜", "黃種子", "紅蛇",
   "白世界橋", "藍手", "黃星星", "紅月", "白狗",
   "藍猴", "黃人", "紅天行者", "白巫師", "藍鷹",
   "黃戰士", "紅地球", "白鏡", "藍風暴", "黃太陽"]

/-- `TONE_NAMES` (part_001 lines 61–65): identical to part_000's list. -/
def TONE_NAMES : List String :=
  ["磁性的", "月亮的", "電力的", "自我存在的", "超頻的",
   "韻律的", "共振的", "銀河星系的", "太陽的", "行星的",
   "光譜的", "水晶的", "宇宙的"]

/-- `isLeapYear` (part_001 lines 72–74): identical to part_000's. -/
def isLeapYear (year : Int) : Bool :=
  (year.tmod 4 == 0 && year.tmod 100 != 0) || year.tmod 400 == 0

/-- `String(n).padStart(2, '0')` for an integer (part_001 line 143). -/
def padStart2 (n : Int) : String :=
  if 0 ≤ n ∧ n < 10 then "0" ++ toString n else toString n

/-- The result object of part_001's `calculateKin`: keys absent from one of
the three return shapes, or explicitly `null`, are `none`. -/
structure KinResult where
  kin : Option Int
  «seal» : Option String
  tone : Option String
  sealNumber : Option Int
  isHunabKu : Bool
  displayText : String
  sealImagePath : Option String
deriving Repr, DecidableEq

/-- `calculateKin` (part_001 lines 83–145).  The unsupported year is a
typed failure record (源碼 lines 99–106), not a throw. -/
def calculateKin (year month day : Int) : KinResult :=
  if month = 2 ∧ day = 29 then
    { kin := none, «seal» := none, tone := none, sealNumber := none,
      isHunabKu := true, displayText := "Hunab Ku",
      sealImagePath := some "./images/hunab-ku-1.png" }
  else if (YEAR_CONSTANTS year).getD 0 = 0 then
    { kin := none, «seal» := none, tone := none, sealNumber := none,
      isHunabKu := false, displayText := "年份數據未定義",
      sealImagePath := none }
  else
    let kin1 := (YEAR_CONSTANTS year).getD 0 + (MONTH_CONSTANTS month).getD 0 + day
    let kin2 := if isLeapYear year && (2 < month || (month == 2 && 28 < day))
                then kin1 + 1 else kin1
    let kin := normalizeKin kin2
    let sealIndex := (kin - 1).tmod 20
    let «seal» := SEAL_NAMES.getD sealIndex.toNat ""
    let toneIndex := (kin - 1).tmod 13
    let tone := TONE_NAMES.getD toneIndex.toNat ""
    let sealNumber := sealIndex + 1
    { kin := some kin, «seal» := some «seal», tone := some tone,
      sealNumber := some sealNumber, isHunabKu := false,
      displayText := tone ++ «seal»,
      sealImagePath := some ("./images/" ++ padStart2 sealNumber ++ ".png") }

end Part001

namespace Part000

/-- Variant of `calculateKin` with the `month === 2 && day > 28` disjunct of
the leap-adjustment guard removed, so the adjustment can only fire for
`month > 2`.  Used to show that disjunct is dead for valid February days. -/
def calculateKinNoFebClause (year month day : Int) : Except String KinResult :=
  if month = 2 ∧ day = 29 then
    .ok { kin := none, «seal» := none, tone := none, sealNumber := none,
          isHunabKu := true, displayText := "Hunab Ku" }
  else if (yearConstants year).getD 0 = 0 then
    .error ("年份 " ++ toString year ++ " 的常數尚未定義")
  else
    let kin1 := (yearConstants year).getD 0 + (monthConstants month).getD 0 + day
    let kin2 := if isLeapYear year && 2 < month then kin1 + 1 else kin1
    let kin := normalizeKin kin2
    let sealIndex := (kin - 1).tmod 20
    let «seal» := sealNames.getD sealIndex.toNat ""
    let toneIndex := (kin - 1).tmod 13
    let tone := toneNames.getD toneIndex.toNat ""
    let sealNumber := sealIndex + 1
    .ok { kin := some kin, «seal» := some «seal», tone := some tone,
          sealNumber := some sealNumber, isHunabKu := false,
          displayText := tone ++ «seal» }

end Part000

/-! ## Properties of the normalization loops -/

theorem wrapDown_pos {k : Int} (h : 260 < k) : wrapDown k = wrapDown (k - 260) := by
  rw [wrapDown]
  simp [h]

theorem wrapDown_neg {k : Int} (h : ¬ 260 < k) : wrapDown k = k := by
  rw [wrapDown]
  simp [h]

theorem wrapDown_le (k : Int) : wrapDown k ≤ 260 := by
  induction k using wrapDown.induct with
  | case1 k h ih =>
    rw [wrapDown_pos h]
    exact ih
  | case2 k h =>
    rw [wrapDown_neg h]
    omega

theorem wrapDown_emod (k : Int) : wrapDown k % 260 = k % 260 := by
  induction k using wrapDown.induct with
  | case1 k h ih =>
    rw [wrapDown_pos h, ih]
    omega
  | case2 k h =>
    rw [wrapDown_neg h]

theorem wrapUp_pos {k : Int} (h : k < 1) : wrapUp k = wrapUp (k + 260) := by
  rw [wrapUp]
  simp [h]

theorem wrapUp_neg {k : Int} (h : ¬ k < 1) : wrapUp k = k := by
  rw [wrapUp]
  simp [h]

theorem wrapUp_ge (k : Int) : 1 ≤ wrapUp k := by
  induction k using wrapUp.induct with
  | case1 k h ih =>
    rw [wrapUp_pos h]
    exact ih
  | case2 k h =>
    rw [wrapUp_neg h]
    omega

theorem wrapUp_le (k : Int) (h : k ≤ 260) : wrapUp k ≤ 260 := by
  induction k using wrapUp.induct with
  | case1 k hk ih =>
    rw [wrapUp_pos hk]
    exact ih (by omega)
  | case2 k hk =>
    rw [wrapUp_neg hk]
    exact h

theorem wrapUp_emod (k : Int) : wrapUp k % 260 = k % 260 := by
  induction k using wrapUp.induct with
  | case1 k h ih =>
    rw [wrapUp_pos h, ih]
    omega
  | case2 k h =>
    rw [wrapUp_neg h]

theorem normalizeKin_ge (k : Int) : 1 ≤ normalizeKin k := wrapUp_ge _

theorem normalizeKin_le (k : Int) : normalizeKin k ≤ 260 :=
  wrapUp_le _ (wrapDown_le k)

theorem normalizeKin_emod (k : Int) : normalizeKin k % 260 = k % 260 := by
  rw [normalizeKin, wrapUp_emod, wrapDown_emod]

/-- The two while loops implement `((k - 1) mod 260) + 1` with the
non-negative (Euclidean) modulo. -/
theorem normalizeKin_eq (k : Int) : normalizeKin k = (k - 1) % 260 + 1 := by
  have h1 := normalizeKin_ge k
  have h2 := normalizeKin_le k
  have h3 := normalizeKin_emod k
  omega

/-! ## Properties of the constant tables -/

theorem yearConstants_bounds (y v : Int)
    (h : Part000.yearConstants y = some v) : 12 ≤ v ∧ v ≤ 237 := by
  unfold Part000.yearConstants at h
  split at h <;> simp_all <;> omega

theorem YEAR_CONSTANTS_bounds (y v : Int)
    (h : Part001.YEAR_CONSTANTS y = some v) : 12 ≤ v ∧ v ≤ 237 := by
  unfold Part001.YEAR_CONSTANTS at h
  split at h <;> simp_all <;> omega

theorem yearConstants_falsy (y : Int) :
    (Part000.yearConstants y).getD 0 = 0 ↔ Part000.yearConstants y = none := by
  rcases hv : Part000.yearConstants y with _ | v
  · simp
  · have := yearConstants_bounds y v hv
    simp
    omega

theorem YEAR_CONSTANTS_falsy (y : Int) :
    (Part001.YEAR_CONSTANTS y).getD 0 = 0 ↔ Part001.YEAR_CONSTANTS y = none := by
  rcases hv : Part001.YEAR_CONSTANTS y with _ | v
  · simp
  · have := YEAR_CONSTANTS_bounds y v hv
    simp
    omega

/-! ## Unfolding lemmas for the three paths of `calculateKin` -/

theorem Part000_calculateKin_hunabKu (y d : Int) (hd : d = 29) :
    Part000.calculateKin y 2 d =
      .ok { kin := none, «seal» := none, tone := none, sealNumber := none,
            isHunabKu := true, displayText := "Hunab Ku" } := by
  subst hd
  rfl

theorem Part000_calculateKin_unsupported (y m d : Int)
    (hy : Part000.yearConstants y = none) (hnot : ¬(m = 2 ∧ d = 29)) :
    Part000.calculateKin y m d =
      .error ("年份 " ++ toString y ++ " 的常數尚未定義") := by
  unfold Part000.calculateKin
  rw [if_neg hnot, hy]
  rfl

theorem Part000_calculateKin_ok (y m d yc K : Int)
    (hy : Part000.yearConstants y = some yc) (h0 : yc ≠ 0)
    (hnot : ¬(m = 2 ∧ d = 29))
    (hK : K = normalizeKin
        (if Part000.isLeapYear y && (2 < m || (m == 2 && 28 < d))
         then yc + (Part000.monthConstants m).getD 0 + d + 1
         else yc + (Part000.monthConstants m).getD 0 + d)) :
    Part000.calculateKin y m d =
      .ok { kin := some K,
            «seal» := some (Part000.sealNames.getD ((K - 1).tmod 20).toNat ""),
            tone := some (Part000.toneNames.getD ((K - 1).tmod 13).toNat ""),
            sealNumber := some ((K - 1).tmod 20 + 1),
            isHunabKu := false,
            displayText := Part000.toneNames.getD ((K - 1).tmod 13).toNat ""
              ++ Part000.sealNames.getD ((K - 1).tmod 20).toNat "" } := by
  subst hK
  unfold Part000.calculateKin
  rw [if_neg hnot, hy]
  simp only [Option.getD_some, if_neg h0]

theorem Part000_calculateKinNoFebClause_ok (y m d yc K : Int)
    (hy : Part000.yearConstants y = some yc) (h0 : yc ≠ 0)
    (hnot : ¬(m = 2 ∧ d = 29))
    (hK : K = normalizeKin
        (if Part000.isLeapYear y && 2 < m
         then yc + (Part000.monthConstants m).getD 0 + d + 1
         else yc + (Part000.monthConstants m).getD 0 + d)) :
    Part000.calculateKinNoFebClause y m d =
      .ok { kin := some K,
            «seal» := some (Part000.sealNames.getD ((K - 1).tmod 20).toNat ""),
            tone := some (Part000.toneNames.getD ((K - 1).tmod 13).toNat ""),
            sealNumber := some ((K - 1).tmod 20 + 1),
            isHunabKu := false,
            displayText := Part000.toneNames.getD ((K - 1).tmod 13).toNat ""
              ++ Part000.sealNames.getD ((K - 1).tmod 20).toNat "" } := by
  subst hK
  unfold Part000.calculateKinNoFebClause
  rw [if_neg hnot, hy]
  simp only [Option.getD_some, if_neg h0]

theorem Part001_calculateKin_hunabKu (y d : Int) (hd : d = 29) :
    Part001.calculateKin y 2 d =
      { kin := none, «seal» := none, tone := none, sealNumber := none,
        isHunabKu := true, displayText := "Hunab Ku",
        sealImagePath := some "./images/hunab-ku-1.png" } := by
  subst hd
  rfl

theorem Part001_calculateKin_unsupported (y m d : Int)
    (hy : Part001.YEAR_CONSTANTS y = none) (hnot : ¬(m = 2 ∧ d = 29)) :
    Part001.calculateKin y m d =
      { kin := none, «seal» := none, tone := none, sealNumber := none,
        isHunabKu := false, displayText := "年份數據未定義",
        sealImagePath := none } := by
  unfold Part001.calculateKin
  rw [if_neg hnot, hy]
  rfl

theorem Part001_calculateKin_ok (y m d yc K : Int)
    (hy : Part001.YEAR_CONSTANTS y = some yc) (h0 : yc ≠ 0)
    (hnot : ¬(m = 2 ∧ d = 29))
    (hK : K = normalizeKin
        (if Part001.isLeapYear y && (2 < m || (m == 2 && 28 < d))
         then yc + (Part001.MONTH_CONSTANTS m).getD 0 + d + 1
         else yc + (Part001.MONTH_CONSTANTS m).getD 0 + d)) :
    Part001.calculateKin y m d =
      { kin := some K,
        «seal» := some (Part001.SEAL_NAMES.getD ((K - 1).tmod 20).toNat ""),
        tone := some (Part001.TONE_NAMES.getD ((K - 1).tmod 13).toNat ""),
        sealNumber := some ((K - 1).tmod 20 + 1),
        isHunabKu := false,
        displayText := Part001.TONE_NAMES.getD ((K - 1).tmod 13).toNat ""
          ++ Part001.SEAL_NAMES.getD ((K - 1).tmod 20).toNat "",
        sealImagePath := some ("./images/" ++ Part001.padStart2 ((K - 1).tmod 20 + 1) ++ ".png") } := by
  subst hK
  unfold Part001.calculateKin
  rw [if_neg hnot, hy]
  simp only [Option.getD_some, if_neg h0]

/-! ## The two copies agree definition-by-definition on the shared parts -/

theorem month_tables_eq (m : Int) :
    Part001.MONTH_CONSTANTS m = Part000.monthConstants m := rfl

theorem seal_tables_eq : Part001.SEAL_NAMES = Part000.sealNames := rfl

theorem tone_tables_eq : Part001.TONE_NAMES = Part000.toneNames := rfl

theorem isLeapYear_eq (y : Int) :
    Part001.isLeapYear y = Part000.isLeapYear y := rfl

/-- Inversion: every `ok` result of part_000's `calculateKin` is either the
Hunab Ku sentinel record or the normal record built from a normalized kin. -/
theorem Part000_calculateKin_ok_cases (y m d : Int) (r : Part000.KinResult)
    (h : Part000.calculateKin y m d = .ok r) :
    r = { kin := none, «seal» := none, tone := none, sealNumber := none,
          isHunabKu := true, displayText := "Hunab Ku" } ∨
    ∃ K, 1 ≤ K ∧ K ≤ 260 ∧
      r = { kin := some K,
            «seal» := some (Part000.sealNames.getD ((K - 1).tmod 20).toNat ""),
            tone := some (Part000.toneNames.getD ((K - 1).tmod 13).toNat ""),
            sealNumber := some ((K - 1).tmod 20 + 1),
            isHunabKu := false,
            displayText := Part000.toneNames.getD ((K - 1).tmod 13).toNat ""
              ++ Part000.sealNames.getD ((K - 1).tmod 20).toNat "" } := by
  by_cases hnot : m = 2 ∧ d = 29
  · left
    rw [hnot.1, Part000_calculateKin_hunabKu y d hnot.2] at h
    exact (Except.ok.inj h).symm
  · rcases hv : Part000.yearConstants y with _ | v
    · rw [Part000_calculateKin_unsupported y m d hv hnot] at h
      cases h
    · have hv0 : v ≠ 0 := by
        have := yearConstants_bounds y v hv
        omega
      rw [Part000_calculateKin_ok y m d v _ hv hv0 hnot rfl] at h
      right
      exact ⟨_, normalizeKin_ge _, normalizeKin_le _, (Except.ok.inj h).symm⟩

/-- For valid February days (and with Feb 29 already intercepted), the
`month === 2 && day > 28` disjunct of the leap guard cannot be true. -/
theorem leap_guard_eq (m d : Int) (hfeb : m = 2 → d ≤ 29)
    (hnot : ¬(m = 2 ∧ d = 29)) (b : Bool) :
    (b && (2 < m || (m == 2 && 28 < d))) = (b && 2 < m) := by
  by_cases h2 : m = 2
  · have hd : d ≤ 28 := by
      rcases Int.lt_or_lt_of_ne (fun h => hnot ⟨h2, h⟩) with h | h
      · omega
      · have := hfeb h2
        omega
    subst h2
    simp
    omega
  · have : (m == 2) = false := by
      simp [h2]
    rw [this]
    simp

/-- On 2014–2030 the two year tables agree and the entry is non-zero. -/
theorem shared_years (y : Int) (h1 : 2014 ≤ y) (h2 : y ≤ 2030) :
    Part001.YEAR_CONSTANTS y = Part000.yearConstants y ∧
    (Part000.yearConstants y).getD 0 ≠ 0 := by
  interval_cases y <;> exact (by decide)

/-- On 2031–2035 only part_001's table has entries. -/
theorem extra_years (y : Int) (h1 : 2031 ≤ y) (h2 : y ≤ 2035) :
    Part000.yearConstants y = none ∧
    ∃ v, Part001.YEAR_CONSTANTS y = some v ∧ v ≠ 0 := by
  interval_cases y <;> exact (by decide)

/-- part_001's year table extends part_000's. -/
theorem year_table_superset (y : Int) (h : Part000.yearConstants y ≠ none) :
    Part001.YEAR_CONSTANTS y = Part000.yearConstants y := by
  unfold Part000.yearConstants at *
  split at h <;> first
  | decide
  | simp_all

/-- The two calculators return field-wise equal results whenever the two
year tables give the same non-zero entry (in particular on 2014–2030). -/
theorem parts_agree (y m d v : Int)
    (h0 : Part000.yearConstants y = some v)
    (h1 : Part001.YEAR_CONSTANTS y = some v) (hv : v ≠ 0) :
    ∃ r0 r1, Part000.calculateKin y m d = .ok r0 ∧
      Part001.calculateKin y m d = r1 ∧
      r1.kin = r0.kin ∧ r1.seal = r0.seal ∧ r1.tone = r0.tone ∧
      r1.isHunabKu = r0.isHunabKu ∧ r1.displayText = r0.displayText := by
  by_cases hnot : m = 2 ∧ d = 29
  · obtain ⟨hm2, hd29⟩ := hnot
    subst hm2
    subst hd29
    exact ⟨_, _, Part000_calculateKin_hunabKu y 29 rfl,
      Part001_calculateKin_hunabKu y 29 rfl, rfl, rfl, rfl, rfl, rfl⟩
  · refine ⟨_, _, Part000_calculateKin_ok y m d v _ h0 hv hnot rfl,
      Part001_calculateKin_ok y m d v _ h1 hv hnot rfl, ?_, ?_, ?_, ?_, ?_⟩ <;>
    simp only [month_tables_eq, seal_tables_eq, tone_tables_eq, isLeapYear_eq]

/-- Divisibility reads the same through truncated and Euclidean remainder. -/
theorem tmod_zero_iff (y n : Int) : y.tmod n = 0 ↔ y % n = 0 := by
  rw [← Int.dvd_iff_tmod_eq_zero, Int.dvd_iff_emod_eq_zero]

/-- The code's `isLeapYear` decides exactly the proleptic Gregorian rule. -/
theorem isLeapYear_iff (y : Int) :
    Part000.isLeapYear y = true ↔ ((y % 4 = 0 ∧ y % 100 ≠ 0) ∨ y % 400 = 0) := by
  unfold Part000.isLeapYear
  simp only [Bool.or_eq_true, Bool.and_eq_true, beq_iff_eq, bne_iff_ne, ne_eq]
  rw [tmod_zero_iff, tmod_zero_iff, tmod_zero_iff]

/-! ## The claims -/

/-- C1: for every year in the year-constant table, every month in [1,12]
and every valid day with (month, day) ≠ (2, 29), the kin returned by
`calculateKin` equals `((raw - 1) mod 260) + 1` with the non-negative
modulo, where `raw` is the year constant plus the month constant plus the
day plus the leap adjustment; the kin is always in [1, 260], raw = 260
yields kin 260 and raw = 261 yields kin 1. -/
theorem C1_kin_is_wrapped_raw_sum (y m d yc mc : Int)
    (hy : Part000.yearConstants y = some yc)
    (hm : Part000.monthConstants m = some mc)
    (_hd1 : 1 ≤ d) (_hd2 : d ≤ 31) (hnot : ¬(m = 2 ∧ d = 29)) :
    ∃ r, Part000.calculateKin y m d = Except.ok r ∧
      r.kin = some ((yc + mc + d +
        (if Part000.isLeapYear y && (2 < m || (m == 2 && 28 < d))
         then 1 else 0) - 1) % 260 + 1) ∧
      (∀ k, r.kin = some k → 1 ≤ k ∧ k ≤ 260) ∧
      (yc + mc + d +
        (if Part000.isLeapYear y && (2 < m || (m == 2 && 28 < d))
         then 1 else 0) = 260 → r.kin = some 260) ∧
      (yc + mc + d +
        (if Part000.isLeapYear y && (2 < m || (m == 2 && 28 < d))
         then 1 else 0) = 261 → r.kin = some 1) := by
  have hv0 : yc ≠ 0 := by
    have := yearConstants_bounds y yc hy
    omega
  set g := Part000.isLeapYear y && (2 < m || (m == 2 && 28 < d)) with hg
  have hX : (if g then yc + (Part000.monthConstants m).getD 0 + d + 1
             else yc + (Part000.monthConstants m).getD 0 + d)
      = yc + mc + d + (if g then 1 else 0) := by
    rw [hm]
    cases g <;> simp
  have h := Part000_calculateKin_ok y m d yc _ hy hv0 hnot rfl
  rw [hX] at h
  refine ⟨_, h, ?_, ?_, ?_, ?_⟩
  · show some (normalizeKin _) = _
    rw [normalizeKin_eq]
  · intro k hk
    have hk' : normalizeKin (yc + mc + d + (if g then 1 else 0)) = k :=
      Option.some.inj hk
    rw [← hk']
    exact ⟨normalizeKin_ge _, normalizeKin_le _⟩
  · intro h260
    show some (normalizeKin _) = _
    rw [h260, normalizeKin_eq]
    decide
  · intro h261
    show some (normalizeKin _) = _
    rw [h261, normalizeKin_eq]
    decide

theorem C1_kin_is_wrapped_raw_sum_witness :
    ∃ r, Part000.calculateKin 2026 1 6 = Except.ok r ∧ r.kin = some 28 := by
  obtain ⟨r, hr, hkin, -, -, -⟩ :=
    C1_kin_is_wrapped_raw_sum 2026 1 6 22 0 (by decide) (by decide)
      (by decide) (by decide) (by decide)
  refine ⟨r, hr, ?_⟩
  rw [hkin]
  decide

/-- C2: for every year, `calculateKin(year, 2, 29)` returns the Hunab Ku
sentinel — `isHunabKu` true, `kin`, `seal` and `tone` all `none` — in both
copies of the calculator, with no numeric computation. -/
theorem C2_feb29_hunab_ku (y : Int) :
    Part000.calculateKin y 2 29 =
      Except.ok { kin := none, «seal» := none, tone := none,
                  sealNumber := none, isHunabKu := true,
                  displayText := "Hunab Ku" } ∧
    Part001.calculateKin y 2 29 =
      { kin := none, «seal» := none, tone := none, sealNumber := none,
        isHunabKu := true, displayText := "Hunab Ku",
        sealImagePath := some "./images/hunab-ku-1.png" } :=
  ⟨Part000_calculateKin_hunabKu y 29 rfl, Part001_calculateKin_hunabKu y 29 rfl⟩

theorem C2_feb29_hunab_ku_witness :
    Part000.calculateKin 2024 2 29 =
      Except.ok { kin := none, «seal» := none, tone := none,
                  sealNumber := none, isHunabKu := true,
                  displayText := "Hunab Ku" } ∧
    Part001.calculateKin 2024 2 29 =
      { kin := none, «seal» := none, tone := none, sealNumber := none,
        isHunabKu := true, displayText := "Hunab Ku",
        sealImagePath := some "./images/hunab-ku-1.png" } :=
  C2_feb29_hunab_ku 2024

/-- C3: for every input with (month, day) ≠ (2, 29) whose year is absent
from the year table, part_000's `calculateKin` throws (an `Except.error`,
never an `ok`), and part_001's returns the typed failure record with
`kin = none` and `isHunabKu = false`; neither returns a numeric kin. -/
theorem C3_unsupported_year_signalled (y m d : Int)
    (hnot : ¬(m = 2 ∧ d = 29)) :
    (Part000.yearConstants y = none →
      Part000.calculateKin y m d =
        Except.error ("年份 " ++ toString y ++ " 的常數尚未定義") ∧
      ∀ r, Part000.calculateKin y m d ≠ Except.ok r) ∧
    (Part001.YEAR_CONSTANTS y = none →
      Part001.calculateKin y m d =
        { kin := none, «seal» := none, tone := none, sealNumber := none,
          isHunabKu := false, displayText := "年份數據未定義",
          sealImagePath := none } ∧
      (Part001.calculateKin y m d).kin = none ∧
      (Part001.calculateKin y m d).isHunabKu = false) := by
  constructor
  · intro hy
    have he := Part000_calculateKin_unsupported y m d hy hnot
    refine ⟨he, fun r hr => ?_⟩
    rw [he] at hr
    cases hr
  · intro hy
    have he := Part001_calculateKin_unsupported y m d hy hnot
    refine ⟨he, ?_, ?_⟩ <;> rw [he]

theorem C3_unsupported_year_signalled_witness :
    Part000.calculateKin 1899 1 1 =
      Except.error ("年份 " ++ toString (1899 : Int) ++ " 的常數尚未定義") ∧
    (Part001.calculateKin 1899 1 1).kin = none ∧
    (Part001.calculateKin 1899 1 1).isHunabKu = false := by
  obtain ⟨h0, h1⟩ := C3_unsupported_year_signalled 1899 1 1 (by decide)
  exact ⟨(h0 (by decide)).1, (h1 (by decide)).2⟩

/-- C4: for every supported year satisfying the proleptic Gregorian leap
rule, `calculateKin` adds exactly 1 to the raw sum for dates strictly after
February 28 (month > 2, or month = 2 and day > 28) and adds nothing
otherwise; concretely, with `yearConstants[2024] = 72`,
`monthConstants[2] = 31` and `monthConstants[3] = 59`, the kins of
2024-03-01 and 2024-02-28 are 133 and 131, differing by 2 modulo 260. -/
theorem C4_leap_adjustment (y m d yc mc : Int)
    (hy : Part000.yearConstants y = some yc)
    (hm : Part000.monthConstants m = some mc)
    (hleap : (y % 4 = 0 ∧ y % 100 ≠ 0) ∨ y % 400 = 0)
    (hnot : ¬(m = 2 ∧ d = 29)) :
    (∃ r, Part000.calculateKin y m d = Except.ok r ∧
      r.kin = some (normalizeKin (yc + mc + d +
        (if 2 < m ∨ (m = 2 ∧ 28 < d) then 1 else 0)))) ∧
    Part000.yearConstants 2024 = some 72 ∧
    Part000.monthConstants 2 = some 31 ∧
    Part000.monthConstants 3 = some 59 ∧
    (∃ r1 r2, Part000.calculateKin 2024 3 1 = Except.ok r1 ∧
      Part000.calculateKin 2024 2 28 = Except.ok r2 ∧
      r1.kin = some 133 ∧ r2.kin = some 131 ∧
      (133 - 131) % 260 = (2 : Int)) := by
  have hb : Part000.isLeapYear y = true := (isLeapYear_iff y).mpr hleap
  have hv0 : yc ≠ 0 := by
    have := yearConstants_bounds y yc hy
    omega
  have hX : (if Part000.isLeapYear y && (2 < m || (m == 2 && 28 < d))
             then yc + (Part000.monthConstants m).getD 0 + d + 1
             else yc + (Part000.monthConstants m).getD 0 + d)
      = yc + mc + d + (if 2 < m ∨ (m = 2 ∧ 28 < d) then 1 else 0) := by
    rw [hm, hb]
    by_cases hp : 2 < m ∨ (m = 2 ∧ 28 < d)
    · have hbb : (2 < m || (m == 2 && 28 < d)) = true := by
        rcases hp with h1 | ⟨h2, h3⟩
        · simp [h1]
        · simp [h2, h3]
      rw [hbb, if_pos hp]
      simp
    · have hbb : (2 < m || (m == 2 && 28 < d)) = false := by
        push_neg at hp
        obtain ⟨h1, h2⟩ := hp
        by_cases hm2 : m = 2
        · have hd28 := h2 hm2
          simp [hm2, hd28]
        · simp [hm2, h1]
      rw [hbb, if_neg hp]
      simp
  have h := Part000_calculateKin_ok y m d yc _ hy hv0 hnot rfl
  rw [hX] at h
  have h1 := Part000_calculateKin_ok 2024 3 1 72 133 (by decide) (by decide)
    (by decide) (by rw [normalizeKin_eq]; decide)
  have h2 := Part000_calculateKin_ok 2024 2 28 72 131 (by decide) (by decide)
    (by decide) (by rw [normalizeKin_eq]; decide)
  exact ⟨⟨_, h, rfl⟩, by decide, by decide, by decide,
    ⟨_, _, h1, h2, rfl, rfl, by decide⟩⟩

theorem C4_leap_adjustment_witness :
    ∃ r, Part000.calculateKin 2024 3 1 = Except.ok r ∧ r.kin = some 133 := by
  obtain ⟨⟨r, hr, hkin⟩, -, -, -, -⟩ :=
    C4_leap_adjustment 2024 3 1 72 59 (by decide) (by decide) (by decide)
      (by decide)
  refine ⟨r, hr, ?_⟩
  rw [hkin, normalizeKin_eq]
  decide

/-- C5: every normal (non-sentinel) result of part_000's `calculateKin`
has seal `sealNames[(kin − 1) mod 20]`, tone `toneNames[(kin − 1) mod 13]`
and display name the tone immediately followed by the seal; and any two
`ok` results with the same kin have the same seal and tone. -/
theorem C5_cycle_names :
    (∀ y m d r, Part000.calculateKin y m d = Except.ok r →
      r.isHunabKu = false →
      ∃ k, r.kin = some k ∧
        r.seal = some (Part000.sealNames.getD ((k - 1) % 20).toNat "") ∧
        r.tone = some (Part000.toneNames.getD ((k - 1) % 13).toNat "") ∧
        r.displayText = Part000.toneNames.getD ((k - 1) % 13).toNat "" ++
          Part000.sealNames.getD ((k - 1) % 20).toNat "") ∧
    (∀ y m d y2 m2 d2 r r2,
      Part000.calculateKin y m d = Except.ok r →
      Part000.calculateKin y2 m2 d2 = Except.ok r2 →
      r.kin = r2.kin → r.seal = r2.seal ∧ r.tone = r2.tone) := by
  constructor
  · intro y m d r h hH
    rcases Part000_calculateKin_ok_cases y m d r h with hs | ⟨K, hK1, hK2, hr⟩
    · rw [hs] at hH
      cases hH
    · subst hr
      have e20 : (K - 1).tmod 20 = (K - 1) % 20 :=
        Int.tmod_eq_emod (by omega) (by omega)
      have e13 : (K - 1).tmod 13 = (K - 1) % 13 :=
        Int.tmod_eq_emod (by omega) (by omega)
      exact ⟨K, rfl, by rw [show (Part000.KinResult.seal _) =
          some (Part000.sealNames.getD ((K - 1).tmod 20).toNat "") from rfl, e20],
        by rw [show (Part000.KinResult.tone _) =
          some (Part000.toneNames.getD ((K - 1).tmod 13).toNat "") from rfl, e13],
        by rw [show (Part000.KinResult.displayText _) =
          Part000.toneNames.getD ((K - 1).tmod 13).toNat "" ++
          Part000.sealNames.getD ((K - 1).tmod 20).toNat "" from rfl, e20, e13]⟩
  · intro y m d y2 m2 d2 r r2 h h2 hkin
    rcases Part000_calculateKin_ok_cases y m d r h with hs | ⟨K, hK1, hK2, hr⟩ <;>
      rcases Part000_calculateKin_ok_cases y2 m2 d2 r2 h2 with hs2 | ⟨K2, hL1, hL2, hr2⟩
    · rw [hs, hs2]
      exact ⟨rfl, rfl⟩
    · rw [hs, hr2] at hkin
      cases hkin
    · rw [hs2, hr] at hkin
      cases hkin
    · rw [hr, hr2] at hkin
      have : K = K2 := Option.some.inj hkin
      subst this
      rw [hr, hr2]
      exact ⟨rfl, rfl⟩

theorem C5_cycle_names_witness :
    ∃ k, (Part000.calculateKin 2026 1 6).toOption.bind (fun r => r.kin) = some k := by
  have h := Part000_calculateKin_ok 2026 1 6 22 28 (by decide) (by decide)
    (by decide) (by rw [normalizeKin_eq]; decide)
  obtain ⟨k, hk, -, -, -⟩ := C5_cycle_names.1 2026 1 6 _ h rfl
  exact ⟨k, by rw [h]; exact hk⟩

/-- C6: `calculateKin(2026, 1, 6)` is the normal result with raw sum
22 + 0 + 6 = 28, no leap adjustment (2026 is not a leap year), kin 28,
seal index 7 ("黃星星"), tone index 1 ("月亮的") and composite name
"月亮的黃星星". -/
theorem C6_example_2026_01_06 :
    Part000.yearConstants 2026 = some 22 ∧
    Part000.monthConstants 1 = some 0 ∧
    Part000.isLeapYear 2026 = false ∧
    (22 + 0 + 6 : Int) = 28 ∧
    Part000.calculateKin 2026 1 6 =
      Except.ok { kin := some 28, «seal» := some "黃星星",
                  tone := some "月亮的", sealNumber := some 8,
                  isHunabKu := false, displayText := "月亮的黃星星" } ∧
    (28 - 1) % 20 = (7 : Int) ∧ (28 - 1) % 13 = (1 : Int) ∧
    Part000.sealNames.getD 7 "" = "黃星星" ∧
    Part000.toneNames.getD 1 "" = "月亮的" := by
  have h := Part000_calculateKin_ok 2026 1 6 22 28 (by decide) (by decide)
    (by decide) (by rw [normalizeKin_eq]; decide)
  refine ⟨by decide, by decide, by decide, by decide, ?_, by decide,
    by decide, rfl, rfl⟩
  rw [h]
  rfl

/-- C7: `calculateKin` is deterministic — two invocations with identical
inputs yield identical outputs, in both copies.  (Both calculators and
their tables are plain Lean definitions, so the tables cannot be mutated
by an invocation.) -/
theorem C7_deterministic (y m d : Int) :
    (∀ r r', Part000.calculateKin y m d = r →
      Part000.calculateKin y m d = r' → r = r') ∧
    (∀ r r', Part001.calculateKin y m d = r →
      Part001.calculateKin y m d = r' → r = r') := by
  constructor <;>
  · intro r r' h h'
    rw [← h, ← h']

theorem C7_deterministic_witness :
    Part000.calculateKin 2026 1 6 = Part000.calculateKin 2026 1 6 :=
  (C7_deterministic 2026 1 6).1 _ _ rfl rfl

/-- C8: for every input whose February day is valid (day ≤ 29 when
month = 2), the `month === 2 && day > 28` disjunct of the leap-adjustment
guard never fires — `calculateKin` coincides with the variant whose guard
is only `month > 2` — and past the sentinel branch the full guard is
equivalent to `month > 2`. -/
theorem C8_feb_guard_disjunct_dead (y m d : Int) (hfeb : m = 2 → d ≤ 29) :
    Part000.calculateKin y m d = Part000.calculateKinNoFebClause y m d ∧
    (¬(m = 2 ∧ d = 29) → ((2 < m ∨ (m = 2 ∧ 28 < d)) ↔ 2 < m)) := by
  constructor
  · by_cases hnot : m = 2 ∧ d = 29
    · obtain ⟨hm2, hd29⟩ := hnot
      subst hm2
      subst hd29
      rfl
    · rcases hv : Part000.yearConstants y with _ | v
      · rw [Part000_calculateKin_unsupported y m d hv hnot]
        unfold Part000.calculateKinNoFebClause
        rw [if_neg hnot, hv]
        rfl
      · have hv0 : v ≠ 0 := by
          have := yearConstants_bounds y v hv
          omega
        rw [Part000_calculateKin_ok y m d v _ hv hv0 hnot rfl,
          Part000_calculateKinNoFebClause_ok y m d v _ hv hv0 hnot rfl,
          leap_guard_eq m d hfeb hnot (Part000.isLeapYear y)]
  · intro hnot
    constructor
    · rintro (h | ⟨h2, h3⟩)
      · exact h
      · have hd := hfeb h2
        have : d ≠ 29 := fun hd29 => hnot ⟨h2, hd29⟩
        omega
    · exact Or.inl

theorem C8_feb_guard_disjunct_dead_witness :
    Part000.calculateKin 2024 2 28 = Part000.calculateKinNoFebClause 2024 2 28 :=
  (C8_feb_guard_disjunct_dead 2024 2 28 (by decide)).1

/-- C9: the two calculator copies are equivalent on the shared year range
2014–2030 (same kin, seal, tone, isHunabKu, displayText); part_001's year
table strictly extends part_000's by 2031–2035, and on those extra years
part_000 signals unsupported-year while part_001 returns a normal numeric
result. -/
theorem C9_two_copies_equivalent :
    (∀ y m d, 2014 ≤ y → y ≤ 2030 →
      ∃ r0 r1, Part000.calculateKin y m d = Except.ok r0 ∧
        Part001.calculateKin y m d = r1 ∧
        r1.kin = r0.kin ∧ r1.seal = r0.seal ∧ r1.tone = r0.tone ∧
        r1.isHunabKu = r0.isHunabKu ∧ r1.displayText = r0.displayText) ∧
    (∀ y, Part000.yearConstants y ≠ none →
      Part001.YEAR_CONSTANTS y = Part000.yearConstants y) ∧
    (∀ y, 2031 ≤ y → y ≤ 2035 →
      Part000.yearConstants y = none ∧ Part001.YEAR_CONSTANTS y ≠ none) ∧
    (∀ y m d, 2031 ≤ y → y ≤ 2035 → ¬(m = 2 ∧ d = 29) →
      Part000.calculateKin y m d =
        Except.error ("年份 " ++ toString y ++ " 的常數尚未定義") ∧
      (Part001.calculateKin y m d).isHunabKu = false ∧
      ∃ k, (Part001.calculateKin y m d).kin = some k) := by
  refine ⟨?_, year_table_superset, ?_, ?_⟩
  · intro y m d h1 h2
    obtain ⟨hagree, hnz⟩ := shared_years y h1 h2
    rcases hv : Part000.yearConstants y with _ | v
    · rw [hv] at hnz
      simp at hnz
    · have hv0 : v ≠ 0 := by
        rw [hv] at hnz
        simpa using hnz
      refine parts_agree y m d v hv ?_ hv0
      rw [hagree, hv]
  · intro y h1 h2
    obtain ⟨h0, v, hv, -⟩ := extra_years y h1 h2
    refine ⟨h0, ?_⟩
    rw [hv]
    simp
  · intro y m d h1 h2 hnot
    obtain ⟨h0, v, hv, hvnz⟩ := extra_years y h1 h2
    refine ⟨Part000_calculateKin_unsupported y m d h0 hnot, ?_, ?_⟩ <;>
      rw [Part001_calculateKin_ok y m d v _ hv hvnz hnot rfl]
    exact ⟨_, rfl⟩

theorem C9_two_copies_equivalent_witness :
    (∃ r0 r1, Part000.calculateKin 2026 1 6 = Except.ok r0 ∧
      Part001.calculateKin 2026 1 6 = r1 ∧
      r1.kin = r0.kin ∧ r1.seal = r0.seal ∧ r1.tone = r0.tone ∧
      r1.isHunabKu = r0.isHunabKu ∧ r1.displayText = r0.displayText) ∧
    Part001.YEAR_CONSTANTS 2014 = Part000.yearConstants 2014 ∧
    Part000.yearConstants 2031 = none ∧
    Part001.YEAR_CONSTANTS 2031 ≠ none ∧
    Part000.calculateKin 2031 1 1 =
      Except.error ("年份 " ++ toString (2031 : Int) ++ " 的常數尚未定義") :=
  ⟨C9_two_copies_equivalent.1 2026 1 6 (by decide) (by decide),
   C9_two_copies_equivalent.2.1 2014 (by decide),
   (C9_two_copies_equivalent.2.2.1 2031 (by decide) (by decide)).1,
   (C9_two_copies_equivalent.2.2.1 2031 (by decide) (by decide)).2,
   (C9_two_copies_equivalent.2.2.2 2031 1 1 (by decide) (by decide) (by decide)).1⟩

/-- C10: every year-table value is an integer in [12, 237] and in
particular nonzero, so the truthiness test `!yearConstants[year]` is
equivalent to key absence, and (Feb 29 aside) the unsupported-year branch
fires exactly when the year has no table entry — in both copies. -/
theorem C10_truthiness_equals_absence :
    (∀ y v, Part000.yearConstants y = some v → 12 ≤ v ∧ v ≤ 237 ∧ v ≠ 0) ∧
    (∀ y, (Part000.yearConstants y).getD 0 = 0 ↔
      Part000.yearConstants y = none) ∧
    (∀ y m d, ¬(m = 2 ∧ d = 29) →
      ((∃ e, Part000.calculateKin y m d = Except.error e) ↔
        Part000.yearConstants y = none)) ∧
    (∀ y v, Part001.YEAR_CONSTANTS y = some v → 12 ≤ v ∧ v ≤ 237 ∧ v ≠ 0) ∧
    (∀ y, (Part001.YEAR_CONSTANTS y).getD 0 = 0 ↔
      Part001.YEAR_CONSTANTS y = none) ∧
    (∀ y m d, ¬(m = 2 ∧ d = 29) →
      (((Part001.calculateKin y m d).kin = none ∧
        (Part001.calculateKin y m d).isHunabKu = false) ↔
        Part001.YEAR_CONSTANTS y = none)) := by
  refine ⟨?_, yearConstants_falsy, ?_, ?_, YEAR_CONSTANTS_falsy, ?_⟩
  · intro y v h
    have := yearConstants_bounds y v h
    exact ⟨this.1, this.2, by omega⟩
  · intro y m d hnot
    constructor
    · rintro ⟨e, he⟩
      rcases hv : Part000.yearConstants y with _ | v
      · rfl
      · have hv0 : v ≠ 0 := by
          have := yearConstants_bounds y v hv
          omega
        rw [Part000_calculateKin_ok y m d v _ hv hv0 hnot rfl] at he
        cases he
    · intro hy
      exact ⟨_, Part000_calculateKin_unsupported y m d hy hnot⟩
  · intro y v h
    have := YEAR_CONSTANTS_bounds y v h
    exact ⟨this.1, this.2, by omega⟩
  · intro y m d hnot
    constructor
    · rintro ⟨hkin, -⟩
      rcases hv : Part001.YEAR_CONSTANTS y with _ | v
      · rfl
      · have hv0 : v ≠ 0 := by
          have := YEAR_CONSTANTS_bounds y v hv
          omega
        rw [Part001_calculateKin_ok y m d v _ hv hv0 hnot rfl] at hkin
        cases hkin
    · intro hy
      rw [Part001_calculateKin_unsupported y m d hy hnot]
      exact ⟨rfl, rfl⟩

theorem C10_truthiness_equals_absence_witness :
    (12 ≤ (62 : Int) ∧ (62 : Int) ≤ 237 ∧ (62 : Int) ≠ 0) ∧
    ((Part000.yearConstants 1899).getD 0 = 0 ↔
      Part000.yearConstants 1899 = none) ∧
    ((∃ e, Part000.calculateKin 1899 1 1 = Except.error e) ↔
      Part000.yearConstants 1899 = none) :=
  ⟨C10_truthiness_equals_absence.1 2014 62 (by decide),
   C10_truthiness_equals_absence.2.1 1899,
   C10_truthiness_equals_absence.2.2.1 1899 1 1 (by decide)⟩

end Dreamspell
